import Mathlib

/- Verification development for the regatta start-sequence firmware
   (src/src/main.rs, an RTIC application).  The RTIC tasks are embedded as
   pure Lean functions: each task body becomes a function from its inputs and
   the relevant shared state to the new shared state plus a list of emitted
   effects (schedule requests, cancellations, diagnostic log lines).  Machine
   integers are Nat with explicit `% 2 ^ w` where wrap-around matters.
   Instants are measured in ticks of the systick monotonic, which is declared
   as `Systick<5000>` (5000 ticks per second), so `x.secs()` is `x * 5000`
   ticks and `x.millis()` is `x * 5` ticks. -/

namespace Regatta

abbrev u64Size : Nat := 2 ^ 64

abbrev u128Size : Nat := 2 ^ 128

/- The pseudo-random generator is the `oorandom` crate's `Rand64`, a
   dependency of this repository whose sources are not under src/ (main.rs
   only calls `oorandom::Rand64::new(seed.into()).rand_range(40..90)`, and
   the spec treats the generator as an opaque capability producing an integer
   in [lo, hi)).  It is embedded here from the crate's published
   implementation: a 128-bit PCG (XSL-RR output, Lemire-style bounded range
   rejection sampling).  The theorems below depend only on the structure of
   the bounded-range step (the output of `randRange g lo hi` lies in
   [lo, hi) and is a pure function of the generator state), not on the exact
   PCG output constants. -/

/-- PCG 128-bit default multiplier used by the `oorandom` dependency. -/
def MULTIPLIER : Nat := 47026247687942121848144207491837523525

/-- Default increment of the `oorandom` 64-bit generator. -/
def DEFAULT_INC : Nat := 117397592171526113268558934119004209487

/-- Generator state of `oorandom::Rand64`: a 128-bit LCG state plus stream
increment. -/
structure Rand64 where
  state : Nat
  inc : Nat
deriving DecidableEq

/-- Rust `u64::rotate_right`: rotation amount is taken mod 64, result is a
64-bit value. -/
def rotr64 (x r : Nat) : Nat :=
  ((x >>> (r % 64)) ||| (x <<< ((64 - r % 64) % 64))) % u64Size

/-- One step of the 128/64 PCG: advance the LCG state (mod 2^128) and emit
the XSL-RR output (xor of the state halves, rotated by the top 6 state
bits). -/
def randU64 (g : Rand64) : Rand64 × Nat :=
  (⟨(g.state * MULTIPLIER + g.inc) % u128Size, g.inc⟩,
   rotr64 (((g.state >>> 64) ^^^ g.state) % u64Size) (g.state >>> 122))

/-- `oorandom::Rand64::new(seed)`: start from state 0 with the default
increment (shifted left one and forced odd), step once, add the seed into
the state, step again. -/
def newRand64 (seed : Nat) : Rand64 :=
  (randU64
    ⟨((randU64 ⟨0, ((DEFAULT_INC <<< 1) ||| 1) % u128Size⟩).1.state + seed) % u128Size,
     ((DEFAULT_INC <<< 1) ||| 1) % u128Size⟩).1

/-- The rejection loop of Lemire's bounded-range method: while the low
64 bits of the product are below the threshold `t`, redraw.  The loop
terminates with overwhelming probability after one or two draws; it is
embedded with explicit fuel, returning the current product when fuel runs
out (the theorems below hold for every fuel value). -/
def lemireWhile : Nat → Rand64 → Nat → Nat → Nat → Rand64 × Nat
  | 0, g, _, _, m => (g, m)
  | fuel + 1, g, s, t, m =>
    if m % u64Size < t then
      lemireWhile fuel (randU64 g).1 s t ((randU64 g).2 * s)
    else (g, m)

/-- First draw plus conditional rejection loop of
`oorandom::Rand64::rand_range`: `m = rand_u64() * s`; when the low 64 bits
of `m` are below `s`, reject while they are below `2^64 mod s`
(`s.wrapping_neg() % s`). -/
def lemireStart (g : Rand64) (s fuel : Nat) : Rand64 × Nat :=
  if ((randU64 g).2 * s) % u64Size < s then
    lemireWhile fuel (randU64 g).1 s (((u64Size - s) % u64Size) % s)
      ((randU64 g).2 * s)
  else ((randU64 g).1, (randU64 g).2 * s)

/-- `oorandom::Rand64::rand_range(lo..hi)`: Lemire's method; the result is
the high 64 bits of the final product, shifted into [lo, hi). -/
def randRange (g : Rand64) (lo hi fuel : Nat) : Rand64 × Nat :=
  ((lemireStart g (hi - lo) fuel).1,
   ((lemireStart g (hi - lo) fuel).2 >>> 64) % u64Size + lo)

/-- The warm-up duration drawn on entry to the `Warning` state
(src/src/main.rs lines 200-201):
`oorandom::Rand64::new(seed.into()).rand_range(40..90)`, in seconds. -/
def warmupSecs (seed : Nat) : Nat :=
  (randRange (newRand64 seed) 40 90 128).2

/-- Level of an open-drain output line.  The horn and lights are wired
active-low: `set_low` asserts (horn/light on), `set_high` releases (idle). -/
inductive PinLevel
  | high
  | low
deriving DecidableEq

/-- The four binary output lines owned by the firmware (PB14, PB15, PB6,
PB7 in src/src/main.rs lines 32-35). -/
structure ActuatorSet where
  horn : PinLevel
  light1 : PinLevel
  light2 : PinLevel
  light3 : PinLevel
deriving DecidableEq

/-- `reset_all` (src/src/main.rs lines 240-256): unconditionally drive all
four outputs high (idle level), regardless of the current state. -/
def reset_all (_a : ActuatorSet) : ActuatorSet :=
  { horn := PinLevel.high, light1 := PinLevel.high,
    light2 := PinLevel.high, light3 := PinLevel.high }

/-- `set_lights` (src/src/main.rs lines 258-287): each `true` argument
drives its light low (on), each `false` drives it high (off).  The
`delay(1000)` busy-waits between the three writes do not affect the final
levels and are not modelled. -/
def set_lights (a : ActuatorSet) (l1 l2 l3 : Bool) : ActuatorSet :=
  { a with
    light1 := if l1 then PinLevel.low else PinLevel.high,
    light2 := if l2 then PinLevel.low else PinLevel.high,
    light3 := if l3 then PinLevel.low else PinLevel.high }

/-- An open-drain line is asserted (horn sounding / light on) when driven
low. -/
def isAsserted : PinLevel → Bool
  | PinLevel.low => true
  | PinLevel.high => false

/-- The on/off reading of the three lights. -/
def lightsOn (a : ActuatorSet) : Bool × Bool × Bool :=
  (isAsserted a.light1, isAsserted a.light2, isAsserted a.light3)

/-- `State` (src/src/main.rs lines 159-166): the countdown states.  The
spec names them Warmup / ThreeMinutes / TwoMinutes / OneMinute / Start. -/
inductive State
  | Warning
  | Three
  | Two
  | One
  | Start
deriving DecidableEq

/-- `Action` (src/src/main.rs lines 96-100): what a poll tick decided to
do after sampling both buttons. -/
inductive Action
  | None
  | Start
  | Stop
deriving DecidableEq

/-- Button sampling of `check_buttons` (src/src/main.rs lines 110-120):
`action` starts as `None`, is overwritten by `Start` when the start line
reads high, then overwritten by `Stop` when the stop line reads high — so
stop wins when both are asserted. -/
def computeAction (startHigh stopHigh : Bool) : Action :=
  let action := Action.None
  let action := if startHigh then Action.Start else action
  let action := if stopHigh then Action.Stop else action
  action

/-- The `defmt::println!` diagnostics emitted by `check_buttons`; logging
is modelled only where a claim refers to it (the stop branch, lines
142-148, and the start branch, line 126). -/
inductive LogMsg
  | spawning
  | stopping
  | stopped
  | notStopped
deriving DecidableEq

/-- Requests a task hands to the RTIC scheduler (spawn / spawn_at /
spawn_after calls) or to a handle (`cancel`), in program order.  Instants
and delays are in 5000 Hz systick ticks. -/
inductive Effect
  | spawnMachine (instant : Nat) (st : State) (seed : Nat)
  | spawnResetAll
  | spawnBeepHorn (millis : Nat)
  | spawnBeepHornAfter (afterTicks millis : Nat)
  | spawnSetLights (l1 l2 l3 : Bool)
  | spawnSetLightsAfter (afterTicks : Nat) (l1 l2 l3 : Bool)
  | cancelHandle (h : Nat)
  | spawnCheckButtons (instant : Nat)
  | log (m : LogMsg)
deriving DecidableEq

/-- Outcome oracle for successive schedule attempts inside one task
invocation: pop the next outcome (`true` = the scheduler had a free slot).
The empty oracle means every attempt succeeds (normal operation — the
scheduler capacity is never exceeded by this task set). -/
def take1 : List Bool → Bool × List Bool
  | [] => (true, [])
  | b :: r => (b, r)

/-- Result of one `machine` invocation: the value written to the shared
`handel` slot, the self re-arm request (instant and next state) if one was
made, and the emitted effects. -/
structure TaskOut where
  handel : Option Nat
  spawned : Option (Nat × State)
  effects : List Effect
deriving DecidableEq

/-- Shallow embedding of the `machine` task (src/src/main.rs lines
168-238).  `instant` is the scheduled instant carried into the step,
`handel` the shared slot's current value, `freshId` the handle the
scheduler would return for a new spawn, `sched` the outcome oracle for the
successive schedule attempts.  Every `.unwrap()` on a failed attempt is a
panic, modelled as `Except.error ()`; the closure `re_spawn` stores the
fresh handle into the shared slot.  On `Start` the slot is cleared and
nothing is re-armed. -/
def machineBody (instant : Nat) (state : State) (seed : Nat)
    (handel : Option Nat) (freshId : Nat) (sched : List Bool) :
    Except Unit TaskOut :=
  match state with
  | State.Warning =>
    let a1 := take1 sched
    if a1.1 then
      let random := warmupSecs seed
      let a2 := take1 a1.2
      if a2.1 then
        Except.ok
          { handel := some freshId,
            spawned := some (instant + random * 5000, State.Three),
            effects := [Effect.spawnBeepHorn 500,
                        Effect.spawnMachine (instant + random * 5000)
                          State.Three seed] }
      else Except.error ()
    else Except.error ()
  | State.Three =>
    let a1 := take1 sched
    if a1.1 then
      let a2 := take1 a1.2
      if a2.1 then
        let a3 := take1 a2.2
        if a3.1 then
          Except.ok
            { handel := some freshId,
              spawned := some (instant + 60 * 5000, State.Two),
              effects := [Effect.spawnBeepHorn 1200,
                          Effect.spawnSetLightsAfter 250 true true true,
                          Effect.spawnMachine (instant + 60 * 5000)
                            State.Two seed] }
        else Except.error ()
      else Except.error ()
    else Except.error ()
  | State.Two =>
    let a1 := take1 sched
    if a1.1 then
      let a2 := take1 a1.2
      if a2.1 then
        let a3 := take1 a2.2
        if a3.1 then
          Except.ok
            { handel := some freshId,
              spawned := some (instant + 60 * 5000, State.One),
              effects := [Effect.spawnSetLights false true true,
                          Effect.spawnBeepHorn 200,
                          Effect.spawnMachine (instant + 60 * 5000)
                            State.One seed] }
        else Except.error ()
      else Except.error ()
    else Except.error ()
  | State.One =>
    let a1 := take1 sched
    if a1.1 then
      let a2 := take1 a1.2
      if a2.1 then
        let a3 := take1 a2.2
        if a3.1 then
          Except.ok
            { handel := some freshId,
              spawned := some (instant + 60 * 5000, State.Start),
              effects := [Effect.spawnSetLights false false true,
                          Effect.spawnBeepHorn 200,
                          Effect.spawnMachine (instant + 60 * 5000)
                            State.Start seed] }
        else Except.error ()
      else Except.error ()
    else Except.error ()
  | State.Start =>
    let a1 := take1 sched
    if a1.1 then
      let a2 := take1 a1.2
      if a2.1 then
        Except.ok
          { handel := none,
            spawned := none,
            effects := [Effect.spawnBeepHorn 2000,
                        Effect.spawnSetLights false false false] }
      else Except.error ()
    else Except.error ()

/-- Project the successful outcome of a machine step (panic yields the
inert output; claims about panics use the `Except` value itself). -/
def outOf (r : Except Unit TaskOut) : TaskOut :=
  match r with
  | Except.ok o => o
  | Except.error _ => { handel := none, spawned := none, effects := [] }

/-- The chain of machine steps of an uninterrupted run: each step's
re-arm request feeds the next step, recorded as the visited
(state, instant) pairs.  Fuel bounds the chain length; the full countdown
takes five steps. -/
def machineTrace : Nat → Nat → State → Nat → List (State × Nat)
  | 0, _, _, _ => []
  | fuel + 1, t, st, seed =>
    (st, t) ::
      (match (outOf (machineBody t st seed none 0 [])).spawned with
       | some q => machineTrace fuel q.1 q.2 seed
       | none => [])

/-- Shallow embedding of the `beep_horn` task (src/src/main.rs lines
289-305): on the first invocation (local `started = false`) drive the horn
low (on) and re-schedule itself after `millis` milliseconds, discarding a
scheduling failure (`.ok()`); on the second invocation drive the horn high
(off).  Returns (new `started`, horn level written, effects). -/
def beep_horn (started : Bool) (millis : Nat) (sched : List Bool) :
    Bool × PinLevel × List Effect :=
  if !started then
    (true, PinLevel.low,
      if (take1 sched).1 then [Effect.spawnBeepHornAfter (millis * 5) millis]
      else [])
  else
    (false, PinLevel.high, [])

/-- Result of one `check_buttons` invocation: the value left in the shared
`handel` slot, the new poll counter, the machine spawn request (instant,
state, seed) if one was issued, the handle on which `cancel` was called if
any, and the emitted effects. -/
structure TickOut where
  handel : Option Nat
  count : Nat
  spawned : Option (Nat × State × Nat)
  cancelled : Option Nat
  effects : List Effect
deriving DecidableEq

/-- Shallow embedding of the `check_buttons` task (src/src/main.rs lines
102-157).  `instant0` is the instant parameter, advanced by 50 ms
(250 ticks) on entry; the counter wraps at 2^64.  `cancelOk` is the result
`h.cancel().is_ok()` reported by the scheduler in the stop branch — it
only selects the log line.  The machine spawn and the final self re-spawn
are `.unwrap()`ed (panic on failure, `Except.error ()`); the reset spawn
in the stop branch discards failure (`.ok()`). -/
def checkButtonsBody (instant0 count : Nat) (startHigh stopHigh cancelOk : Bool)
    (handel : Option Nat) (freshId : Nat) (sched : List Bool) :
    Except Unit TickOut :=
  let instant := instant0 + 250
  let seed := (count + 1) % u64Size
  match computeAction startHigh stopHigh with
  | Action.Start =>
    match handel with
    | none =>
      let a1 := take1 sched
      if a1.1 then
        let a2 := take1 a1.2
        if a2.1 then
          Except.ok
            { handel := some freshId, count := seed,
              spawned := some (instant, State.Warning, seed),
              cancelled := none,
              effects := [Effect.log LogMsg.spawning,
                          Effect.spawnMachine instant State.Warning seed,
                          Effect.spawnCheckButtons instant] }
        else Except.error ()
      else Except.error ()
    | some h =>
      let a2 := take1 sched
      if a2.1 then
        Except.ok
          { handel := some h, count := seed, spawned := none,
            cancelled := none,
            effects := [Effect.spawnCheckButtons instant] }
      else Except.error ()
  | Action.Stop =>
    match handel with
    | some h =>
      let a1 := take1 sched
      let a2 := take1 a1.2
      if a2.1 then
        Except.ok
          { handel := none, count := seed, spawned := none,
            cancelled := some h,
            effects := [Effect.log LogMsg.stopping]
              ++ (if a1.1 then [Effect.spawnResetAll] else [])
              ++ [Effect.cancelHandle h,
                  Effect.log (if cancelOk then LogMsg.stopped
                              else LogMsg.notStopped),
                  Effect.spawnCheckButtons instant] }
      else Except.error ()
    | none =>
      let a2 := take1 sched
      if a2.1 then
        Except.ok
          { handel := none, count := seed, spawned := none,
            cancelled := none,
            effects := [Effect.spawnCheckButtons instant] }
      else Except.error ()
  | Action.None =>
    let a2 := take1 sched
    if a2.1 then
      Except.ok
        { handel := handel, count := seed, spawned := none,
          cancelled := none,
          effects := [Effect.spawnCheckButtons instant] }
    else Except.error ()

/-- Effects of a successful poll tick (a panicking tick emits nothing). -/
def tickEffects (r : Except Unit TickOut) : List Effect :=
  match r with
  | Except.ok o => o.effects
  | Except.error _ => []

/-- Ownership-level system state: the shared `handel` slot (src/src/main.rs
line 36), the single pending `machine` invocation held by the RTIC
scheduler as (handle, state, seed) — the dispatch queue has exactly one
slot for `machine`, sized by RTIC's single-message capacity — the next
fresh handle id the scheduler would issue, and the poller's tick counter.
Instants are irrelevant to handle ownership and are not tracked here (the
timed behaviour is covered by `machineTrace`). -/
structure Sys where
  handel : Option Nat
  pending : Option (Nat × State × Nat)
  nextId : Nat
  count : Nat
deriving DecidableEq

/-- Atomic events at the granularity the claims quantify over: a complete
poll tick with the two sampled input levels, or the firing of the pending
machine step (which consumes its handle and runs the step to
completion). -/
inductive Ev
  | poll (startHigh stopHigh : Bool)
  | fire
deriving DecidableEq

/-- `cancel(h)` succeeds exactly when the handle taken from the shared slot
still names the pending (not yet fired) machine invocation; otherwise the
payload already ran and cancel reports AlreadyFired. -/
def cancelOkOf (s : Sys) : Bool :=
  match s.handel, s.pending with
  | some h, some p => h == p.1
  | _, _ => false

/-- Effect of one complete `check_buttons` tick on the ownership state:
run the tick body against the shared slot; a machine spawn fills the
pending slot with the fresh handle, a cancel empties it when the cancelled
handle is the pending one.  Instants are passed as 0 (untracked here). -/
def pollStepSys (startHigh stopHigh : Bool) (s : Sys) : Sys :=
  match checkButtonsBody 0 s.count startHigh stopHigh (cancelOkOf s)
      s.handel s.nextId [] with
  | Except.error _ => s
  | Except.ok out =>
    { handel := out.handel,
      count := out.count,
      pending :=
        match out.spawned with
        | some q => some (s.nextId, q.2.1, q.2.2)
        | none =>
          match out.cancelled with
          | some h =>
            match s.pending with
            | some p => if p.1 = h then none else some p
            | none => none
          | none => s.pending,
      nextId := if out.spawned.isSome then s.nextId + 1 else s.nextId }

/-- Firing of the pending machine step: the scheduler consumes the pending
handle (its payload starts executing) and runs the `machine` body, whose
re-arm request becomes the new pending invocation under a fresh handle. -/
def fireStepSys (s : Sys) : Sys :=
  match s.pending with
  | none => s
  | some p =>
    match machineBody 0 p.2.1 p.2.2 s.handel s.nextId [] with
    | Except.error _ => s
    | Except.ok out =>
      { handel := out.handel,
        count := s.count,
        pending :=
          match out.spawned with
          | some q => some (s.nextId, q.2, p.2.2)
          | none => none,
        nextId := if out.spawned.isSome then s.nextId + 1 else s.nextId }

/-- One atomic event. -/
def stepSys : Ev → Sys → Sys
  | Ev.poll sh st, s => pollStepSys sh st s
  | Ev.fire, s => fireStepSys s

/-- Boot state (src/src/main.rs line 85): `handel: None`, nothing
pending. -/
def initSys : Sys :=
  { handel := none, pending := none, nextId := 0, count := 0 }

/-- The system state after a sequence of poll ticks and machine-step
firings. -/
def runSys (evs : List Ev) : Sys :=
  evs.foldl (fun s e => stepSys e s) initSys

/-- Single-flight ownership invariant: the shared slot stores exactly the
handle of the pending machine invocation (so it is live, never a consumed
or stale one), and that handle is the most recently issued one
(`h + 1 = nextId`); when nothing is pending the slot is `None`. -/
def SysInv (s : Sys) : Prop :=
  match s.pending with
  | none => s.handel = none
  | some p => s.handel = some p.1 ∧ p.1 + 1 = s.nextId

lemma rotr64_lt (x r : Nat) : rotr64 x r < u64Size :=
  Nat.mod_lt _ (by norm_num [u64Size])

lemma randU64_lt (g : Rand64) : (randU64 g).2 < u64Size :=
  rotr64_lt _ _

lemma lemireWhile_shape : ∀ (fuel : Nat) (g : Rand64) (s t m : Nat),
    (∃ x, x < u64Size ∧ m = x * s) →
    ∃ x, x < u64Size ∧ (lemireWhile fuel g s t m).2 = x * s
  | 0, g, s, t, m, hm => by
    simpa [lemireWhile] using hm
  | fuel + 1, g, s, t, m, hm => by
    rw [lemireWhile]
    by_cases h : m % u64Size < t
    · rw [if_pos h]
      exact lemireWhile_shape fuel (randU64 g).1 s t _
        ⟨(randU64 g).2, randU64_lt g, rfl⟩
    · rw [if_neg h]
      exact hm

lemma lemireStart_shape (g : Rand64) (s fuel : Nat) :
    ∃ x, x < u64Size ∧ (lemireStart g s fuel).2 = x * s := by
  rw [lemireStart]
  by_cases h : ((randU64 g).2 * s) % u64Size < s
  · rw [if_pos h]
    exact lemireWhile_shape fuel (randU64 g).1 s _ _
      ⟨(randU64 g).2, randU64_lt g, rfl⟩
  · rw [if_neg h]
    exact ⟨(randU64 g).2, randU64_lt g, rfl⟩

/-- Lemire's bounded-range draw always lands in [lo, hi), for every
generator state and every rejection fuel. -/
lemma randRange_mem (g : Rand64) (lo hi fuel : Nat) (hlt : lo < hi) :
    lo ≤ (randRange g lo hi fuel).2 ∧ (randRange g lo hi fuel).2 < hi := by
  obtain ⟨x, hx, hshape⟩ := lemireStart_shape g (hi - lo) fuel
  have hs : 0 < hi - lo := by omega
  have h1 : (lemireStart g (hi - lo) fuel).2 >>> 64 < hi - lo := by
    rw [hshape, Nat.shiftRight_eq_div_pow]
    exact Nat.div_lt_of_lt_mul
      (by
        have := Nat.mul_lt_mul_of_lt_of_le hx (Nat.le_refl (hi - lo)) hs
        simpa [u64Size] using this)
  have h2 : ((lemireStart g (hi - lo) fuel).2 >>> 64) % u64Size
      ≤ (lemireStart g (hi - lo) fuel).2 >>> 64 := Nat.mod_le _ _
  rw [randRange]
  constructor
  · omega
  · omega

lemma sysInv_poll (sh st : Bool) (s : Sys) (hs : SysInv s) :
    SysInv (pollStepSys sh st s) := by
  obtain ⟨hd, pd, nid, cnt⟩ := s
  cases pd with
  | none =>
    have hhd : hd = none := hs
    subst hhd
    cases sh <;> cases st <;>
      simp [pollStepSys, checkButtonsBody, computeAction, take1, cancelOkOf,
        SysInv]
  | some p =>
    obtain ⟨ph, pst, psd⟩ := p
    have hs2 : hd = some ph ∧ ph + 1 = nid := hs
    obtain ⟨h1, h2⟩ := hs2
    subst h1
    cases sh <;> cases st <;>
      simp [pollStepSys, checkButtonsBody, computeAction, take1, cancelOkOf,
        SysInv, h2]

lemma sysInv_fire (s : Sys) (hs : SysInv s) : SysInv (fireStepSys s) := by
  obtain ⟨hd, pd, nid, cnt⟩ := s
  cases pd with
  | none =>
    have hhd : hd = none := hs
    subst hhd
    simp [fireStepSys, SysInv]
  | some p =>
    obtain ⟨ph, pst, psd⟩ := p
    have hs2 : hd = some ph ∧ ph + 1 = nid := hs
    obtain ⟨h1, h2⟩ := hs2
    subst h1
    cases pst <;>
      simp [fireStepSys, machineBody, take1, SysInv]

lemma sysInv_step (e : Ev) (s : Sys) (hs : SysInv s) : SysInv (stepSys e s) := by
  cases e with
  | poll sh st => exact sysInv_poll sh st s hs
  | fire => exact sysInv_fire s hs

lemma sysInv_run (evs : List Ev) :
    ∀ s : Sys, SysInv s → SysInv (evs.foldl (fun s e => stepSys e s) s) := by
  induction evs with
  | nil => intro s hs; exact hs
  | cons e tl ih => intro s hs; exact ih _ (sysInv_step e s hs)

/-- C1: For an uninterrupted countdown armed with seed `seed` at instant
`t0`, the machine-step chain visits Warning (Warmup), then Three after the
seed-derived delay `warmupSecs seed` seconds (`* 5000` ticks), then Two,
One and Start each 60 seconds (300000 ticks) apart; the per-state light
writes are (on,on,on) at Three, (off,on,on) at Two, (off,off,on) at One
and (off,off,off) at Start (the boolean arguments are the on/off levels,
as the `lightsOn`/`set_lights` conjunct shows); and the Start step clears
the shared `handel` slot to `none` and issues no further machine spawn. -/
theorem C1_uninterrupted_run (seed t0 : Nat) (hIn : Option Nat) (fid : Nat) :
    machineTrace 5 t0 State.Warning seed =
      [(State.Warning, t0),
       (State.Three, t0 + warmupSecs seed * 5000),
       (State.Two, t0 + warmupSecs seed * 5000 + 300000),
       (State.One, t0 + warmupSecs seed * 5000 + 300000 + 300000),
       (State.Start, t0 + warmupSecs seed * 5000 + 300000 + 300000 + 300000)]
    ∧ Effect.spawnSetLightsAfter 250 true true true
        ∈ (outOf (machineBody (t0 + warmupSecs seed * 5000) State.Three seed
            hIn fid [])).effects
    ∧ Effect.spawnSetLights false true true
        ∈ (outOf (machineBody (t0 + warmupSecs seed * 5000 + 300000) State.Two
            seed hIn fid [])).effects
    ∧ Effect.spawnSetLights false false true
        ∈ (outOf (machineBody (t0 + warmupSecs seed * 5000 + 300000 + 300000)
            State.One seed hIn fid [])).effects
    ∧ Effect.spawnSetLights false false false
        ∈ (outOf (machineBody
            (t0 + warmupSecs seed * 5000 + 300000 + 300000 + 300000)
            State.Start seed hIn fid [])).effects
    ∧ (outOf (machineBody
        (t0 + warmupSecs seed * 5000 + 300000 + 300000 + 300000)
        State.Start seed hIn fid [])).handel = none
    ∧ (outOf (machineBody
        (t0 + warmupSecs seed * 5000 + 300000 + 300000 + 300000)
        State.Start seed hIn fid [])).spawned = none
    ∧ (∀ a l1 l2 l3, lightsOn (set_lights a l1 l2 l3) = (l1, l2, l3)) := by
  refine ⟨rfl, ?_, ?_, ?_, ?_, rfl, rfl, ?_⟩
  · exact List.Mem.tail _ (List.Mem.head _)
  · exact List.Mem.head _
  · exact List.Mem.head _
  · exact List.Mem.tail _ (List.Mem.head _)
  · intro a l1 l2 l3
    cases l1 <;> cases l2 <;> cases l3 <;> rfl

/-- C2: For every sequence of poll ticks and machine-step firings, at most
one countdown is armed at a time: whenever the shared `handel` slot holds
a handle, that handle is exactly the pending (live, not yet consumed)
machine invocation's handle and is the most recently issued one
(`h + 1 = nextId`) — never a stale or already-consumed handle.  (The slot
is an `Option`, so it can never hold two distinct handles at once.) -/
theorem C2_single_live_handle (evs : List Ev) (h : Nat)
    (hh : (runSys evs).handel = some h) :
    (runSys evs).pending.map Prod.fst = some h
      ∧ h + 1 = (runSys evs).nextId := by
  have hinv : SysInv (runSys evs) := sysInv_run evs initSys rfl
  cases hpd : (runSys evs).pending with
  | none =>
    unfold SysInv at hinv
    rw [hpd] at hinv
    rw [hinv] at hh
    exact absurd hh (by simp)
  | some p =>
    unfold SysInv at hinv
    rw [hpd] at hinv
    obtain ⟨h1, h2⟩ := hinv
    rw [h1] at hh
    have hph : p.1 = h := Option.some.inj hh
    subst hph
    exact ⟨by simp, h2⟩

/-- Witness for C2: after a single poll tick observing start, the slot
holds handle 0, which is pending and the most recently issued. -/
theorem C2_single_live_handle_witness :
    (runSys [Ev.poll true false]).handel = some 0
      ∧ ((runSys [Ev.poll true false]).pending.map Prod.fst = some 0
          ∧ 0 + 1 = (runSys [Ev.poll true false]).nextId) :=
  ⟨by decide, C2_single_live_handle [Ev.poll true false] 0 (by decide)⟩

/-- C3: The warm-up delay is an integer number of seconds that lies in the
claimed interval [20, 90) for every seed (the code draws from
`rand_range(40..90)`, a subset of that interval), and it is a pure
function of the seed captured when the sequence was armed: equal seeds
yield the equal delay. -/
theorem C3_warmup_delay_range_deterministic (seed : Nat) :
    (20 ≤ warmupSecs seed ∧ warmupSecs seed < 90)
      ∧ ∀ seed2, seed2 = seed → warmupSecs seed2 = warmupSecs seed := by
  have h := randRange_mem (newRand64 seed) 40 90 128 (by omega)
  unfold warmupSecs
  exact ⟨⟨by omega, by omega⟩, fun seed2 h2 => by rw [h2]⟩

/-- Witness for C3 at seed 7. -/
theorem C3_warmup_delay_witness :
    (20 ≤ warmupSecs 7 ∧ warmupSecs 7 < 90) ∧ warmupSecs 7 = warmupSecs 7 :=
  ⟨(C3_warmup_delay_range_deterministic 7).1,
   (C3_warmup_delay_range_deterministic 7).2 7 rfl⟩

/-- C4 counterexample: the claim "a failed schedule call never halts or
crashes the system" is false.  A machine step in `Warning` whose first
schedule attempt (the horn beep spawn, line 197) fails panics
(`.unwrap()` on `Err`), modelled as `Except.error ()`; likewise a poll
tick whose machine spawn (line 128-134) fails panics. -/
theorem C4_counterexample :
    machineBody 0 State.Warning 1 none 0 [false] = Except.error ()
      ∧ checkButtonsBody 0 0 true false true none 0 [false]
          = Except.error () :=
  ⟨rfl, rfl⟩

/-- C4 amended: only two call sites tolerate a full scheduler — the stop
branch's `reset_all::spawn().ok()` (proceeding without the reset effect,
handle still taken) and `beep_horn`'s own off-phase re-spawn (horn still
turned on, off phase lost); every schedule call made by a machine step
(and the poll tick's machine spawn and self re-spawn) unwraps the result
and panics when the scheduler has no free slot. -/
theorem C4_amended_failure_sites :
    (∀ t cnt h cancelOk fid,
      checkButtonsBody t cnt false true cancelOk (some h) fid [false]
        = Except.ok
            { handel := none, count := (cnt + 1) % u64Size, spawned := none,
              cancelled := some h,
              effects := [Effect.log LogMsg.stopping, Effect.cancelHandle h,
                          Effect.log (if cancelOk then LogMsg.stopped
                                      else LogMsg.notStopped),
                          Effect.spawnCheckButtons (t + 250)] })
    ∧ (∀ millis, beep_horn false millis [false] = (true, PinLevel.low, []))
    ∧ (∀ t seed h fid st, machineBody t st seed h fid [false]
        = Except.error ()) := by
  refine ⟨?_, ?_, ?_⟩
  · intro t cnt h cancelOk fid
    cases cancelOk <;> rfl
  · intro millis
    rfl
  · intro t seed h fid st
    cases st <;> rfl

/-- C5: When a poll tick observes both input lines asserted, stop takes
precedence: the tick behaves exactly as a stop-only tick, and it performs
no start effect (no machine spawn is requested). -/
theorem C5_stop_precedence (t cnt : Nat) (handel : Option Nat)
    (cancelOk : Bool) (fid : Nat) :
    checkButtonsBody t cnt true true cancelOk handel fid []
      = checkButtonsBody t cnt false true cancelOk handel fid []
    ∧ ∀ i st sd, Effect.spawnMachine i st sd
        ∉ tickEffects (checkButtonsBody t cnt true true cancelOk handel fid []) := by
  refine ⟨rfl, ?_⟩
  intro i st sd
  cases handel <;>
    simp [checkButtonsBody, computeAction, take1, tickEffects]

/-- C6: A poll tick observing stop while the slot holds `some h` takes the
handle out (slot ends `none`), issues the actuator reset, then attempts
`cancel h`; the cancellation result (`cancelOk = false` = AlreadyFired)
only selects the log line, and the slot still ends the tick as `none`. -/
theorem C6_stop_takes_resets_cancels (t cnt h : Nat) (cancelOk : Bool)
    (fid : Nat) :
    checkButtonsBody t cnt false true cancelOk (some h) fid []
      = Except.ok
          { handel := none, count := (cnt + 1) % u64Size, spawned := none,
            cancelled := some h,
            effects := [Effect.log LogMsg.stopping, Effect.spawnResetAll,
                        Effect.cancelHandle h,
                        Effect.log (if cancelOk then LogMsg.stopped
                                    else LogMsg.notStopped),
                        Effect.spawnCheckButtons (t + 250)] } := by
  cases cancelOk <;> rfl

/-- C7: Start-while-running is a no-op: a poll tick observing start while
the slot holds `some h` leaves the same handle stored, requests no machine
spawn, and only re-schedules itself. -/
theorem C7_start_while_running_noop (t cnt h : Nat) (cancelOk : Bool)
    (fid : Nat) :
    checkButtonsBody t cnt true false cancelOk (some h) fid []
      = Except.ok
          { handel := some h, count := (cnt + 1) % u64Size, spawned := none,
            cancelled := none,
            effects := [Effect.spawnCheckButtons (t + 250)] }
    ∧ ∀ i st sd, Effect.spawnMachine i st sd
        ∉ tickEffects (checkButtonsBody t cnt true false cancelOk (some h)
            fid []) := by
  refine ⟨rfl, ?_⟩
  intro i st sd
  simp [checkButtonsBody, computeAction, take1, tickEffects]

/-- C8 counterexample: the claim that the Warmup beep's on-duration lies
in ~0.8–1.2 s is false — the only beep triggered on entry to `Warning` is
`beep_horn::spawn(500)` (line 197), and `beep_horn` holds the horn on for
exactly the given 500 ms (2500 ticks) before the off phase, and
¬(800 ≤ 500). -/
theorem C8_counterexample :
    (outOf (machineBody 0 State.Warning 1 none 0 [])).effects.filter
        (fun e => match e with
          | Effect.spawnBeepHorn _ => true
          | _ => false)
      = [Effect.spawnBeepHorn 500]
    ∧ beep_horn false 500 []
        = (true, PinLevel.low, [Effect.spawnBeepHornAfter 2500 500])
    ∧ ¬ (800 ≤ 500 ∧ 500 ≤ 1200) := by
  refine ⟨by decide, rfl, by decide⟩

/-- C8 amended: on entry to `Warning` (Warmup) the controller triggers a
single horn beep of 500 ms on-duration: `beep_horn` drives the horn low
(on) and schedules its own off phase 500 ms (2500 ticks) later, which
drives the horn high (off). -/
theorem C8_warmup_beep_is_500ms (seed t : Nat) (hIn : Option Nat)
    (fid : Nat) :
    (outOf (machineBody t State.Warning seed hIn fid [])).effects.filter
        (fun e => match e with
          | Effect.spawnBeepHorn _ => true
          | _ => false)
      = [Effect.spawnBeepHorn 500]
    ∧ (∀ millis, beep_horn false millis []
        = (true, PinLevel.low,
           [Effect.spawnBeepHornAfter (millis * 5) millis]))
    ∧ beep_horn true 500 [] = (false, PinLevel.high, []) :=
  ⟨rfl, fun _ => rfl, rfl⟩

/-- C9: `reset_all` is idempotent: running it twice from any actuator
state leaves the four outputs exactly as running it once. -/
theorem C9_reset_all_idempotent (a : ActuatorSet) :
    reset_all (reset_all a) = reset_all a := rfl

/-- C10: A poll tick observing stop while the slot is `None` is a no-op on
shared state: the stop branch issues no reset and no cancellation, the
slot stays `none`, and the only effect is the unconditional self
re-schedule (so the actuator outputs are untouched). -/
theorem C10_stop_when_idle_noop (t cnt : Nat) (cancelOk : Bool) (fid : Nat) :
    checkButtonsBody t cnt false true cancelOk none fid []
      = Except.ok
          { handel := none, count := (cnt + 1) % u64Size, spawned := none,
            cancelled := none,
            effects := [Effect.spawnCheckButtons (t + 250)] }
    ∧ Effect.spawnResetAll
        ∉ tickEffects (checkButtonsBody t cnt false true cancelOk none fid [])
    ∧ ∀ h, Effect.cancelHandle h
        ∉ tickEffects (checkButtonsBody t cnt false true cancelOk none fid []) := by
  refine ⟨rfl, ?_, ?_⟩
  · simp [checkButtonsBody, computeAction, take1, tickEffects]
  · intro h
    simp [checkButtonsBody, computeAction, take1, tickEffects]

end Regatta
